import Mathlib

/-!
Shallow embedding of `search_agent.py` (class `VideoProcessingAgent`):
the construction-time environment checks, the `assist` request flow with
its emitted response blocks, the transcription pipeline
(`transcribe_video`, `convert_mp4_to_audio`) and the streaming
summarization (`summarize_text`).

Modelling conventions:
- Python `dict` values become association lists with first-match lookup.
- Python truthiness of an optional string (`if not x`) is `pyTruthyOpt`.
- Emission through the response handler is modelled by the list of
  emitted events, in order; an uncaught exception aborting the response
  is recorded in the `raised` field of the result.
- `async` functions are modelled as plain functions; an async generator
  is modelled by `AsyncGen`, the sequence of fragments it will yield
  when iterated, kept distinct from a plain string by the `PyVal` type.
  An async generator object is not awaitable: `await` applied to it
  raises `TypeError`, modelled as the `typeError` exception.
- The file system visible to `transcribe_video` is a path-to-bytes
  association list; `tempfile.NamedTemporaryFile` creates an empty file
  at a fresh path supplied by the environment.
-/

/-- Truthiness of a Python string: empty string is falsy. -/
def pyTruthy (s : String) : Bool := s != ""

/-- Truthiness of `os.getenv` / `dict.get` results: `None` and the empty
string are falsy. -/
def pyTruthyOpt : Option String → Bool
  | none => false
  | some s => pyTruthy s

/-- First-match lookup in an association list, as Python `dict.get`
(keys are unique in a dict, so first match is the match). -/
def assocGet (key : String) : List (String × String) → Option String
  | [] => none
  | (k, v) :: rest => if k = key then some v else assocGet key rest

/-- Process environment: variable-name-to-value map read by `os.getenv`. -/
abbrev Environ := List (String × String)

/-- Python `os.getenv`: `None` when the variable is unset. -/
def os_getenv (env : Environ) (name : String) : Option String :=
  assocGet name env

/-- The model provider client, constructed as `ModelProvider(api_key=...)`. -/
structure ModelProvider where
  api_key : String
  deriving DecidableEq

/-- The search provider client, constructed as `SearchProvider(api_key=...)`. -/
structure SearchProvider where
  api_key : String
  deriving DecidableEq

/-- The Google Cloud speech client, constructed as `speech.SpeechClient()`
with no arguments: it receives and stores nothing from the constructor. -/
inductive SpeechClient where
  | mk
  deriving DecidableEq

/-- The constructed agent state after `VideoProcessingAgent.__init__`
succeeds: the name stored by the superclass and the three clients. -/
structure VideoProcessingAgent where
  name : String
  model_provider : ModelProvider
  search_provider : SearchProvider
  speech_client : SpeechClient
  deriving DecidableEq

/-- Observable steps of `__init__`, in execution order: each network
client construction, and the `ValueError` raised on a missing variable. -/
inductive InitEvent where
  | createModelProvider
  | createSearchProvider
  | createSpeechClient
  | raiseValueError (msg : String)
  deriving DecidableEq

/-- `VideoProcessingAgent.__init__`: reads `MODEL_API_KEY`, constructs
`ModelProvider`, reads `TAVILY_API_KEY`, constructs `SearchProvider`,
reads `GOOGLE_CLOUD_SPEECH_API_KEY`, constructs `SpeechClient()`; a falsy
variable raises `ValueError` at its check, before the client that check
guards is constructed. Returns the trace of observable steps together
with the outcome (the raised error message, or the constructed agent). -/
def agent_init_run (env : Environ) (name : String) :
    List InitEvent × Except String VideoProcessingAgent :=
  let model_api_key := os_getenv env "MODEL_API_KEY"
  if pyTruthyOpt model_api_key = false then
    ([InitEvent.raiseValueError "MODEL_API_KEY is not set"],
     Except.error "MODEL_API_KEY is not set")
  else
    let mp : ModelProvider := { api_key := model_api_key.getD "" }
    let search_api_key := os_getenv env "TAVILY_API_KEY"
    if pyTruthyOpt search_api_key = false then
      ([InitEvent.createModelProvider,
        InitEvent.raiseValueError "TAVILY_API_KEY is not set"],
       Except.error "TAVILY_API_KEY is not set")
    else
      let sp : SearchProvider := { api_key := search_api_key.getD "" }
      let google_cloud_speech_api_key :=
        os_getenv env "GOOGLE_CLOUD_SPEECH_API_KEY"
      if pyTruthyOpt google_cloud_speech_api_key = false then
        ([InitEvent.createModelProvider, InitEvent.createSearchProvider,
          InitEvent.raiseValueError "GOOGLE_CLOUD_SPEECH_API_KEY is not set"],
         Except.error "GOOGLE_CLOUD_SPEECH_API_KEY is not set")
      else
        ([InitEvent.createModelProvider, InitEvent.createSearchProvider,
          InitEvent.createSpeechClient],
         Except.ok { name := name, model_provider := mp,
                     search_provider := sp,
                     speech_client := SpeechClient.mk })

/-- Outcome of `__init__`: the constructed agent or the raised error. -/
def agent_init (env : Environ) (name : String) :
    Except String VideoProcessingAgent :=
  (agent_init_run env name).2

/-- Trace of observable `__init__` steps, in execution order. -/
def agent_init_trace (env : Environ) : List InitEvent :=
  (agent_init_run env "").1

/-- Exceptions the request flow can raise and propagate; `typeError` is
the `TypeError` raised by `await` on a non-awaitable object. -/
inductive PyExn where
  | typeError
  | indexError
  | fileError
  | serviceError (msg : String)
  deriving DecidableEq

/-- Raw byte content of a file (a Python `bytes` value). -/
abbrev Bytes := List Nat

/-- File system state: path-to-content association list. -/
abbrev FS := List (String × Bytes)

/-- Write (create or overwrite) a file. -/
def fsWrite (fs : FS) (path : String) (content : Bytes) : FS :=
  (path, content) :: fs

/-- Read a file: `open(path, "rb").read()`; `none` is `FileNotFoundError`. -/
def fsRead : FS → String → Option Bytes
  | [], _ => none
  | (p, c) :: rest, path => if p = path then some c else fsRead rest path

/-- One ranked transcript alternative of a recognition result. -/
structure SpeechAlternative where
  transcript : String
  deriving DecidableEq

/-- One per-segment recognition result with its ranked alternatives. -/
structure SpeechResult where
  alternatives : List SpeechAlternative
  deriving DecidableEq

/-- The speech service response: the ordered recognition results. -/
structure RecognizeResponse where
  results : List SpeechResult
  deriving DecidableEq

/-- Audio encodings of `speech.RecognitionConfig.AudioEncoding`
used by this code. -/
inductive AudioEncoding where
  | LINEAR16
  deriving DecidableEq

/-- The `speech.RecognitionConfig` passed to `recognize`. -/
structure RecognitionConfig where
  encoding : AudioEncoding
  sample_rate_hertz : Nat
  language_code : String
  deriving DecidableEq

/-- An unconsumed async generator of text fragments: `pending` is the
sequence it will yield, in order, when iterated. -/
structure AsyncGen where
  pending : List String
  deriving DecidableEq

/-- One iteration step of an async generator (`__anext__`): the next
fragment and the advanced generator, or `none` when exhausted. -/
def AsyncGen.anext : AsyncGen → Option (String × AsyncGen)
  | { pending := [] } => none
  | { pending := chunk :: rest } => some (chunk, { pending := rest })

/-- Single-pass consumption of an async generator (`async for` to
exhaustion): every yielded fragment, in emission order. -/
def AsyncGen.consume (g : AsyncGen) : List String :=
  match h : g.anext with
  | none => []
  | some (chunk, g') => chunk :: g'.consume
termination_by g.pending.length
decreasing_by
  cases g with
  | mk pending =>
    cases pending with
    | nil => simp [AsyncGen.anext] at h
    | cons c rest =>
      simp [AsyncGen.anext] at h
      simp [← h.2]

/-- A JSON-serialisable Python value appearing in an emitted payload:
a string, or an (unserialisable) async generator object. -/
inductive PyVal where
  | str (s : String)
  | gen (g : AsyncGen)
  deriving DecidableEq

/-- One interaction with the response handler, in emission order:
`emit_text_block`, `emit_json` (payload as key-value pairs), `complete`. -/
inductive Event where
  | emit_text_block (label msg : String)
  | emit_json (label : String) (payload : List (String × PyVal))
  | complete
  deriving DecidableEq

/-- The inbound query: its named attachments (the agent reads only
`"mp4_file"`); attachment values are the string payloads Python sees. -/
structure Query where
  attachments : List (String × String)
  deriving DecidableEq

/-- External collaborators and request-scoped resources of one `assist`
call: the file system, the fresh path `tempfile.NamedTemporaryFile`
hands out, the speech service behind `SpeechClient.recognize`, and the
model provider's `query_stream` (the fragment sequence it will stream
for a given prompt). -/
structure Env where
  fs : FS
  tempPath : String
  recognize : RecognitionConfig → Bytes → Except PyExn RecognizeResponse
  query_stream : String → List String

/-- `VideoProcessingAgent.convert_mp4_to_audio`: the body is `pass` —
it performs no side effect and returns nothing. -/
def convert_mp4_to_audio (fs : FS) (mp4_file : String)
    (output_audio_path : String) : FS :=
  fs

/-- Top alternative transcript of one result:
`result.alternatives[0].transcript`; `IndexError` when empty. -/
def top_transcript (result : SpeechResult) : Except PyExn String :=
  match result.alternatives with
  | [] => Except.error PyExn.indexError
  | alt :: _ => Except.ok alt.transcript

/-- The list comprehension
`[result.alternatives[0].transcript for result in response.results]`:
left to right, first `IndexError` aborts. -/
def top_transcripts : List SpeechResult → Except PyExn (List String)
  | [] => Except.ok []
  | result :: rest =>
    match top_transcript result with
    | Except.error e => Except.error e
    | Except.ok t =>
      match top_transcripts rest with
      | Except.error e => Except.error e
      | Except.ok ts => Except.ok (t :: ts)

/-- `VideoProcessingAgent.transcribe_video`: acquire a temporary file
(`delete=False`, created empty), run the no-op conversion, read the
audio bytes back, submit them to the speech service as LINEAR16 / 16000
Hz / en-US, and newline-join the top alternative of each result.
Any failure propagates as the error. -/
def transcribe_video (env : Env) (mp4_file : String) :
    Except PyExn String :=
  let fs0 := fsWrite env.fs env.tempPath []
  let audio_path := env.tempPath
  let fs1 := convert_mp4_to_audio fs0 mp4_file audio_path
  match fsRead fs1 audio_path with
  | none => Except.error PyExn.fileError
  | some audio_content =>
    match env.recognize
        { encoding := AudioEncoding.LINEAR16, sample_rate_hertz := 16000,
          language_code := "en-US" } audio_content with
    | Except.error e => Except.error e
    | Except.ok response =>
      match top_transcripts response.results with
      | Except.error e => Except.error e
      | Except.ok tops => Except.ok (String.intercalate "\n" tops)

/-- `VideoProcessingAgent.summarize_text`: an async generator function;
calling it builds the generator that, when iterated, streams every chunk
of `query_stream("Summarize the following text: " + text)` through,
one `yield` per chunk. The call itself consumes nothing. -/
def summarize_text (query_stream : String → List String)
    (text : String) : AsyncGen :=
  { pending := query_stream ("Summarize the following text: " ++ text) }

/-- Result of one `assist` call: the events emitted to the response
handler, in order, and the uncaught exception that aborted the call,
if any. -/
structure AssistResult where
  events : List Event
  raised : Option PyExn
  deriving DecidableEq

/-- `VideoProcessingAgent.assist`: look up attachment `"mp4_file"`; if
falsy or absent, emit the `ERROR` text block and return. Otherwise emit
`PROCESSING` and transcribe; an exception from transcription aborts the
call after `PROCESSING` with nothing caught. When transcription
succeeds, the next statement awaits the async generator object that the
call to `summarize_text` returns; an async generator is not awaitable,
so the `await` raises `TypeError` before any value is bound to
`summary`, and the `TRANSCRIPTION` and `SUMMARY` emissions and the
completion signal written below that line are never reached. -/
def assist (env : Env) (query : Query) : AssistResult :=
  let mp4_file := assocGet "mp4_file" query.attachments
  match mp4_file with
  | none =>
    { events := [Event.emit_text_block "ERROR" "No MP4 file provided."],
      raised := none }
  | some f =>
    if pyTruthy f = false then
      { events := [Event.emit_text_block "ERROR" "No MP4 file provided."],
        raised := none }
    else
      match transcribe_video env f with
      | Except.error e =>
        { events :=
            [Event.emit_text_block "PROCESSING" "Processing MP4 file..."],
          raised := some e }
      | Except.ok _transcription =>
        { events :=
            [Event.emit_text_block "PROCESSING" "Processing MP4 file..."],
          raised := some PyExn.typeError }

/-! ## Shared concrete fixtures used by witnesses -/

/-- A speech response with two segments whose top alternatives are
"hello" and "world". -/
def sampleResponse : RecognizeResponse :=
  { results := [{ alternatives := [{ transcript := "hello" }] },
                { alternatives := [{ transcript := "world" }] }] }

/-- An environment whose speech service answers `sampleResponse` and
whose model provider streams the fragments A, B, C. -/
def sampleEnv : Env :=
  { fs := [], tempPath := "audio.tmp",
    recognize := fun _ _ => Except.ok sampleResponse,
    query_stream := fun _ => ["A", "B", "C"] }

/-- An environment whose speech service raises a network error. -/
def failEnv : Env :=
  { fs := [], tempPath := "audio.tmp",
    recognize := fun _ _ => Except.error (PyExn.serviceError "network down"),
    query_stream := fun _ => ["A", "B", "C"] }

/-- A query carrying a truthy `mp4_file` attachment. -/
def sampleQuery : Query := { attachments := [("mp4_file", "video.mp4")] }

/-! ## Claims -/

/-- C1: the claimed block order fails on the code: at a query with a
truthy `mp4_file` attachment and a responding speech service, awaiting
the async generator returned by `summarize_text` raises `TypeError`, so
only the `PROCESSING` block is emitted and no `TRANSCRIPTION` block,
`SUMMARY` block or completion signal ever follows. -/
theorem assist_block_order_bug :
    assist sampleEnv sampleQuery =
      { events := [Event.emit_text_block "PROCESSING" "Processing MP4 file..."],
        raised := some PyExn.typeError } := by
  rfl

/-- C2 counterexample: at the sample environment and query the response
holds no `SUMMARY` JSON block at all — the `await` raises `TypeError`
before anything is bound to `summary` — so no value, stream or
otherwise, is ever emitted inside a `SUMMARY` block. -/
theorem assist_no_summary_block_counterexample :
    (assist sampleEnv sampleQuery).events.filter
      (fun ev =>
        match ev with
        | Event.emit_json "SUMMARY" _ => true
        | _ => false) = [] ∧
    (assist sampleEnv sampleQuery).raised = some PyExn.typeError :=
  ⟨rfl, rfl⟩

/-- C2 amended: the call to `summarize_text` in step 4 does produce the
lazy, unconsumed fragment sequence for the summarization prompt — never
a concatenated string — but awaiting that async generator raises
`TypeError`, so no value is bound to `summary` and `assist` aborts after
the `PROCESSING` block with no `SUMMARY` block emitted. -/
theorem assist_summary_await_raises (env : Env) (q : Query)
    (f t : String)
    (hq : assocGet "mp4_file" q.attachments = some f)
    (hf : pyTruthy f = true)
    (ht : transcribe_video env f = Except.ok t) :
    (∀ s : String,
      PyVal.gen (summarize_text env.query_stream t) ≠ PyVal.str s) ∧
    (summarize_text env.query_stream t).pending =
      env.query_stream ("Summarize the following text: " ++ t) ∧
    assist env q =
      { events := [Event.emit_text_block "PROCESSING" "Processing MP4 file..."],
        raised := some PyExn.typeError } := by
  refine ⟨?_, rfl, ?_⟩
  · intro s
    simp
  · simp [assist, hq, hf, ht]

/-- Witness for the amended C2 at the sample environment and query. -/
theorem assist_summary_await_raises_witness :
    (∀ s : String,
      PyVal.gen (summarize_text sampleEnv.query_stream "hello\nworld") ≠
        PyVal.str s) ∧
    (summarize_text sampleEnv.query_stream "hello\nworld").pending =
      ["A", "B", "C"] ∧
    assist sampleEnv sampleQuery =
      { events := [Event.emit_text_block "PROCESSING" "Processing MP4 file..."],
        raised := some PyExn.typeError } :=
  assist_summary_await_raises sampleEnv sampleQuery "video.mp4"
    "hello\nworld" (by rfl) (by rfl) (by rfl)

/-- C3: for every query with no `mp4_file` attachment, `assist` emits
exactly the `ERROR` text block and returns with no exception, no other
block and no completion signal. -/
theorem assist_no_mp4_attachment (env : Env) (q : Query)
    (hq : assocGet "mp4_file" q.attachments = none) :
    assist env q =
      { events := [Event.emit_text_block "ERROR" "No MP4 file provided."],
        raised := none } := by
  simp [assist, hq]

/-- Witness for C3 at a query with no attachments. -/
theorem assist_no_mp4_attachment_witness :
    assist sampleEnv { attachments := [] } =
      { events := [Event.emit_text_block "ERROR" "No MP4 file provided."],
        raised := none } :=
  assist_no_mp4_attachment sampleEnv { attachments := [] } (by rfl)

/-- C9: the guard tests falsiness, not presence: a query whose
`mp4_file` attachment is present but falsy (the empty string) takes the
same `ERROR` path as a missing attachment, with no processing. -/
theorem assist_falsy_attachment (env : Env) (q : Query) (f : String)
    (hq : assocGet "mp4_file" q.attachments = some f)
    (hf : pyTruthy f = false) :
    assist env q =
      { events := [Event.emit_text_block "ERROR" "No MP4 file provided."],
        raised := none } := by
  simp [assist, hq, hf]

/-- Witness for C9 at a query whose `mp4_file` attachment is the empty
string. -/
theorem assist_falsy_attachment_witness :
    assist sampleEnv { attachments := [("mp4_file", "")] } =
      { events := [Event.emit_text_block "ERROR" "No MP4 file provided."],
        raised := none } :=
  assist_falsy_attachment sampleEnv { attachments := [("mp4_file", "")] }
    "" (by rfl) (by rfl)

/-- C8: for every query with a truthy `mp4_file` attachment, any
exception of the transcription or summarization step propagates
uncaught: when transcription raises, its exception is the abort; when
transcription succeeds, the summarization step's `await` on the async
generator raises `TypeError` and that propagates. In both cases only
the `PROCESSING` block precedes the abort — no `TRANSCRIPTION` block,
`SUMMARY` block or completion signal after the failing step, and no
retry. -/
theorem assist_propagates_exceptions (env : Env) (q : Query) (f : String)
    (hq : assocGet "mp4_file" q.attachments = some f)
    (hf : pyTruthy f = true) :
    (∀ e, transcribe_video env f = Except.error e →
      assist env q =
        { events := [Event.emit_text_block "PROCESSING" "Processing MP4 file..."],
          raised := some e }) ∧
    (∀ t, transcribe_video env f = Except.ok t →
      assist env q =
        { events := [Event.emit_text_block "PROCESSING" "Processing MP4 file..."],
          raised := some PyExn.typeError }) := by
  constructor
  · intro e ht
    simp [assist, hq, hf, ht]
  · intro t ht
    simp [assist, hq, hf, ht]

/-- Witness for C8: a speech-service network error propagates, and on a
responding speech service the summarization step's `TypeError`
propagates. -/
theorem assist_propagates_exceptions_witness :
    assist failEnv sampleQuery =
      { events := [Event.emit_text_block "PROCESSING" "Processing MP4 file..."],
        raised := some (PyExn.serviceError "network down") } ∧
    assist sampleEnv sampleQuery =
      { events := [Event.emit_text_block "PROCESSING" "Processing MP4 file..."],
        raised := some PyExn.typeError } :=
  ⟨(assist_propagates_exceptions failEnv sampleQuery "video.mp4"
      (by rfl) (by rfl)).1 (PyExn.serviceError "network down") (by rfl),
   (assist_propagates_exceptions sampleEnv sampleQuery "video.mp4"
      (by rfl) (by rfl)).2 "hello\nworld" (by rfl)⟩

/-- C4: `transcribe_video` returns the newline-joined top alternative
transcripts of the recognition results, in service order, for the empty
audio content the degenerate extraction produces. -/
theorem transcribe_video_joins_top_alternatives (env : Env) (f : String)
    (resp : RecognizeResponse) (tops : List String)
    (hrec : env.recognize
        { encoding := AudioEncoding.LINEAR16, sample_rate_hertz := 16000,
          language_code := "en-US" } [] = Except.ok resp)
    (htops : top_transcripts resp.results = Except.ok tops) :
    transcribe_video env f = Except.ok (String.intercalate "\n" tops) := by
  simp [transcribe_video, fsWrite, fsRead, convert_mp4_to_audio, hrec, htops]

/-- Witness for C4: two segments with top alternatives "hello" and
"world" give the transcript "hello\nworld". -/
theorem transcribe_video_joins_top_alternatives_witness :
    transcribe_video sampleEnv "video.mp4" = Except.ok "hello\nworld" :=
  transcribe_video_joins_top_alternatives sampleEnv "video.mp4"
    sampleResponse ["hello", "world"] (by rfl) (by rfl)

/-- Fully iterating an async generator yields exactly its pending
fragments, in order. -/
theorem AsyncGen.consume_mk (l : List String) :
    AsyncGen.consume { pending := l } = l := by
  induction l with
  | nil =>
    rw [AsyncGen.consume]
    rfl
  | cons chunk rest ih =>
    rw [AsyncGen.consume]
    show chunk :: AsyncGen.consume { pending := rest } = chunk :: rest
    rw [ih]

/-- C6: for every input text and model provider, single-pass iteration
of the generator returned by `summarize_text` yields exactly the
fragment sequence the provider streams for the summarization prompt, in
emission order, each fragment once. -/
theorem summarize_text_streams_provider_fragments
    (query_stream : String → List String) (text : String) :
    AsyncGen.consume (summarize_text query_stream text) =
      query_stream ("Summarize the following text: " ++ text) := by
  rw [summarize_text, AsyncGen.consume_mk]

/-- C7: `convert_mp4_to_audio` is a no-op on every input: it leaves the
file system unchanged, so the freshly created empty temporary file still
holds empty content when read back. -/
theorem convert_mp4_to_audio_is_noop (fs : FS)
    (mp4_file output_audio_path : String) :
    convert_mp4_to_audio fs mp4_file output_audio_path = fs ∧
    fsRead (convert_mp4_to_audio (fsWrite fs output_audio_path [])
        mp4_file output_audio_path) output_audio_path = some [] := by
  constructor
  · rfl
  · simp [convert_mp4_to_audio, fsWrite, fsRead]

/-- An environment with `TAVILY_API_KEY` unset and the other two
variables set. -/
def missingTavilyEnv : Environ :=
  [("MODEL_API_KEY", "modelkey"),
   ("GOOGLE_CLOUD_SPEECH_API_KEY", "speechkey")]

/-- C5 counterexample: with only `TAVILY_API_KEY` unset, construction
does raise the configuration error, but the `ModelProvider` network
client has already been created before the error is raised, refuting
"before any network client has been created". -/
theorem agent_init_client_created_before_error :
    os_getenv missingTavilyEnv "TAVILY_API_KEY" = none ∧
    agent_init missingTavilyEnv "agent" =
      Except.error "TAVILY_API_KEY is not set" ∧
    agent_init_trace missingTavilyEnv =
      [InitEvent.createModelProvider,
       InitEvent.raiseValueError "TAVILY_API_KEY is not set"] :=
  ⟨rfl, rfl, rfl⟩

/-- C5 amended: with any one of the three variables unset or empty,
construction raises a configuration error and the speech client is
never created; clients guarded by variables checked earlier may already
have been created before the error. -/
theorem agent_init_missing_var_aborts (env : Environ) (name : String)
    (h : pyTruthyOpt (os_getenv env "MODEL_API_KEY") = false ∨
         pyTruthyOpt (os_getenv env "TAVILY_API_KEY") = false ∨
         pyTruthyOpt (os_getenv env "GOOGLE_CLOUD_SPEECH_API_KEY") = false) :
    (∃ msg, agent_init env name = Except.error msg) ∧
    InitEvent.createSpeechClient ∉ agent_init_trace env := by
  by_cases hm : pyTruthyOpt (os_getenv env "MODEL_API_KEY") = false
  · refine ⟨⟨"MODEL_API_KEY is not set", ?_⟩, ?_⟩ <;>
      simp [agent_init, agent_init_trace, agent_init_run, hm]
  · by_cases hs : pyTruthyOpt (os_getenv env "TAVILY_API_KEY") = false
    · refine ⟨⟨"TAVILY_API_KEY is not set", ?_⟩, ?_⟩ <;>
        simp [agent_init, agent_init_trace, agent_init_run, hm, hs]
    · have hg : pyTruthyOpt (os_getenv env "GOOGLE_CLOUD_SPEECH_API_KEY")
          = false := by
        rcases h with h | h | h
        · exact absurd h hm
        · exact absurd h hs
        · exact h
      refine ⟨⟨"GOOGLE_CLOUD_SPEECH_API_KEY is not set", ?_⟩, ?_⟩ <;>
        simp [agent_init, agent_init_trace, agent_init_run, hm, hs, hg]

/-- Witness for the amended C5 at the environment with `TAVILY_API_KEY`
unset. -/
theorem agent_init_missing_var_aborts_witness :
    (∃ msg, agent_init missingTavilyEnv "agent" = Except.error msg) ∧
    InitEvent.createSpeechClient ∉ agent_init_trace missingTavilyEnv :=
  agent_init_missing_var_aborts missingTavilyEnv "agent"
    (Or.inr (Or.inl (by decide)))

/-- C10: the value of `GOOGLE_CLOUD_SPEECH_API_KEY` influences nothing
beyond its non-emptiness: two environments that agree everywhere else
and both carry a non-empty speech key construct identical agent states,
because the key is checked but never passed to the speech client or
stored. -/
theorem agent_init_ignores_speech_key_value (env1 env2 : Environ)
    (name v1 v2 : String)
    (hother : ∀ k, k ≠ "GOOGLE_CLOUD_SPEECH_API_KEY" →
      os_getenv env1 k = os_getenv env2 k)
    (h1 : os_getenv env1 "GOOGLE_CLOUD_SPEECH_API_KEY" = some v1)
    (h2 : os_getenv env2 "GOOGLE_CLOUD_SPEECH_API_KEY" = some v2)
    (hv1 : v1 ≠ "") (hv2 : v2 ≠ "") :
    agent_init env1 name = agent_init env2 name := by
  have hm := hother "MODEL_API_KEY" (by decide)
  have hs := hother "TAVILY_API_KEY" (by decide)
  have t1 : pyTruthyOpt (some v1) = true := by
    simp [pyTruthyOpt, pyTruthy, hv1]
  have t2 : pyTruthyOpt (some v2) = true := by
    simp [pyTruthyOpt, pyTruthy, hv2]
  simp only [agent_init, agent_init_run, hm, hs, h1, h2, t1, t2]

/-- Two environments differing only in the (non-empty) value of the
speech key. -/
def speechEnvA : Environ :=
  [("MODEL_API_KEY", "modelkey"), ("TAVILY_API_KEY", "searchkey"),
   ("GOOGLE_CLOUD_SPEECH_API_KEY", "speechkeyA")]

/-- Same as `speechEnvA` with a different speech key value. -/
def speechEnvB : Environ :=
  [("MODEL_API_KEY", "modelkey"), ("TAVILY_API_KEY", "searchkey"),
   ("GOOGLE_CLOUD_SPEECH_API_KEY", "speechkeyB")]

/-- Witness for C10 at two concrete environments with distinct speech
key values. -/
theorem agent_init_ignores_speech_key_value_witness :
    agent_init speechEnvA "agent" = agent_init speechEnvB "agent" :=
  agent_init_ignores_speech_key_value speechEnvA speechEnvB "agent"
    "speechkeyA" "speechkeyB"
    (fun k hk => by
      by_cases e1 : "MODEL_API_KEY" = k
      · simp [os_getenv, speechEnvA, speechEnvB, assocGet, e1]
      · by_cases e2 : "TAVILY_API_KEY" = k
        · simp [os_getenv, speechEnvA, speechEnvB, assocGet, e1, e2]
        · have e3 : ¬ ("GOOGLE_CLOUD_SPEECH_API_KEY" = k) :=
            fun hh => hk hh.symm
          simp [os_getenv, speechEnvA, speechEnvB, assocGet, e1, e2, e3])
    (by rfl) (by rfl) (by decide) (by decide)
